import Mathlib

/-!
Verification of the water-quality evaluation module of the rainwater
dashboard.  The JavaScript functions `getSensorStatus`,
`calculateWaterQuality` and `getSafeRangePercentage` are embedded as pure
Lean functions over exact rational arithmetic.  Statuses are the literal
strings "safe", "warning", "unsafe" used by the source (`WATER_STATUS`),
sensor kinds are the literal key strings of `SENSOR_THRESHOLDS`, and a
JavaScript object of sensor readings is embedded as an association list
of (name, value) pairs read in insertion order, with the resulting
per-sensor status object embedded as a lookup function
`String → Option String` updated exactly where the source assigns
`statuses[sensor] = status`.
-/

/-- A row of the `SENSOR_THRESHOLDS` table (all fields of the source
object, including the purely descriptive ones). -/
structure Threshold where
  min : ℚ
  max : ℚ
  unit : String
  name : String
  description : String
  safeRange : String
deriving DecidableEq

/-- The `SENSOR_THRESHOLDS` lookup table: an object keyed by the four
sensor-kind strings; lookup of any other key yields `none` (JS
`undefined`). -/
def SENSOR_THRESHOLDS : String → Option Threshold
  | "ph" => some
      { min := 6.5, max := 8.5, unit := "pH", name := "pH Level",
        description := "Measure of water acidity or alkalinity",
        safeRange := "6.5 - 8.5" }
  | "turbidity" => some
      { min := 0, max := 5, unit := "NTU", name := "Turbidity",
        description := "Measure of water clarity",
        safeRange := "< 5 NTU" }
  | "tds" => some
      { min := 0, max := 500, unit := "mg/L", name := "TDS",
        description := "Total Dissolved Solids in water",
        safeRange := "< 500 mg/L" }
  | "temperature" => some
      { min := 15, max := 25, unit := "°C", name := "Temperature",
        description := "Water temperature",
        safeRange := "15 - 25°C" }
  | _ => none

/-- `getSensorStatus(sensorType, value)` of the source: classify one
sensor reading as "safe", "warning" or "unsafe". -/
def getSensorStatus (sensorType : String) (value : ℚ) : String :=
  match SENSOR_THRESHOLDS sensorType with
  | none => "warning"
  | some threshold =>
    if sensorType = "ph" then
      if threshold.min ≤ value ∧ value ≤ threshold.max then "safe"
      else if threshold.min - 0.5 ≤ value ∧ value ≤ threshold.max + 0.5 then
        "warning"
      else "unsafe"
    else if sensorType = "turbidity" ∨ sensorType = "tds" then
      if value ≤ threshold.max * 0.8 then "safe"
      else if value ≤ threshold.max then "warning"
      else "unsafe"
    else if sensorType = "temperature" then
      if threshold.min ≤ value ∧ value ≤ threshold.max then "safe"
      else if threshold.min - 5 ≤ value ∧ value ≤ threshold.max + 5 then
        "warning"
      else "unsafe"
    else "safe"

/-- The record returned by `calculateWaterQuality`: the overall status,
the per-sensor status object (as a lookup function) and the derived
`isPotable` flag. -/
structure WaterQualityResult where
  overall : String
  sensors : String → Option String
  isPotable : Bool

/-- One iteration of the `for (const [sensor, value] of
Object.entries(sensorData))` loop of `calculateWaterQuality`: entries
without a threshold leave the accumulator unchanged; otherwise the
sensor's status is recorded and the running overall status is upgraded
when the new status is worse. -/
def waterQualityStep (acc : (String → Option String) × String)
    (entry : String × ℚ) : (String → Option String) × String :=
  match SENSOR_THRESHOLDS entry.1 with
  | none => acc
  | some _ =>
    let status := getSensorStatus entry.1 entry.2
    (fun k => if k = entry.1 then some status else acc.1 k,
     if status = "unsafe" then "unsafe"
     else if status = "warning" ∧ acc.2 = "safe" then "warning"
     else acc.2)

/-- `calculateWaterQuality(sensorData)` of the source: fold the loop
body over the entries, starting from an empty status object and overall
status "safe". -/
def calculateWaterQuality (sensorData : List (String × ℚ)) :
    WaterQualityResult :=
  let res := sensorData.foldl waterQualityStep (fun _ => none, "safe")
  { overall := res.2, sensors := res.1, isPotable := res.2 == "safe" }

/-- `getSafeRangePercentage(sensorType, value)` of the source: the
normalized position of a value inside its safe range, for gauges. -/
def getSafeRangePercentage (sensorType : String) (value : ℚ) : ℚ :=
  match SENSOR_THRESHOLDS sensorType with
  | none => 50
  | some threshold =>
    if sensorType = "ph" then
      let range := threshold.max - threshold.min
      let midpoint := threshold.min + range / 2
      let deviation := |value - midpoint|
      max 0 (min 100 (100 - deviation / (range / 2) * 100))
    else
      max 0 (min 100 (value / threshold.max * 100))

/-- Severity rank of a status string, for stating the order
Safe < Warning < Unsafe. -/
def severity (status : String) : ℕ :=
  if status = "safe" then 0
  else if status = "warning" then 1
  else if status = "unsafe" then 2
  else 0

/-- The status string of a severity rank (inverse of `severity` on the
three status strings). -/
def statusOfSeverity (n : ℕ) : String :=
  if n = 0 then "safe" else if n = 1 then "warning" else "unsafe"

/-- Modelled from the spec: the statuses of exactly those input entries
whose kind has a known threshold, in input order (the entries
`calculateWaterQuality` classifies). -/
def classifiedStatuses (sensorData : List (String × ℚ)) : List String :=
  sensorData.filterMap fun entry =>
    match SENSOR_THRESHOLDS entry.1 with
    | none => none
    | some _ => some (getSensorStatus entry.1 entry.2)

/-- Modelled from the spec: the most severe status among the classified
entries, "safe" when none were classified. -/
def overallSpec (sensorData : List (String × ℚ)) : String :=
  statusOfSeverity (((classifiedStatuses sensorData).map severity).foldl max 0)

/-- A sequence of independent `getSensorStatus` calls, one result per
call. -/
def runClassifyCalls (calls : List (String × ℚ)) : List String :=
  calls.map fun c => getSensorStatus c.1 c.2

/-- A sequence of independent `getSafeRangePercentage` calls, one result
per call. -/
def runPercentageCalls (calls : List (String × ℚ)) : List ℚ :=
  calls.map fun c => getSafeRangePercentage c.1 c.2

/-! ### Evaluation lemmas for the four known kinds -/

lemma getSensorStatus_ph (v : ℚ) :
    getSensorStatus "ph" v =
      if 6.5 ≤ v ∧ v ≤ 8.5 then "safe"
      else if 6.5 - 0.5 ≤ v ∧ v ≤ 8.5 + 0.5 then "warning"
      else "unsafe" := rfl

lemma getSensorStatus_turbidity (v : ℚ) :
    getSensorStatus "turbidity" v =
      if v ≤ 5 * 0.8 then "safe"
      else if v ≤ 5 then "warning"
      else "unsafe" := rfl

lemma getSensorStatus_tds (v : ℚ) :
    getSensorStatus "tds" v =
      if v ≤ 500 * 0.8 then "safe"
      else if v ≤ 500 then "warning"
      else "unsafe" := rfl

lemma getSensorStatus_temperature (v : ℚ) :
    getSensorStatus "temperature" v =
      if 15 ≤ v ∧ v ≤ 25 then "safe"
      else if 15 - 5 ≤ v ∧ v ≤ 25 + 5 then "warning"
      else "unsafe" := rfl

lemma getSafeRangePercentage_ph (v : ℚ) :
    getSafeRangePercentage "ph" v =
      max 0 (min 100
        (100 - |v - (6.5 + (8.5 - 6.5) / 2)| / ((8.5 - 6.5) / 2) * 100)) := rfl

lemma getSafeRangePercentage_turbidity (v : ℚ) :
    getSafeRangePercentage "turbidity" v =
      max 0 (min 100 (v / 5 * 100)) := rfl

lemma getSafeRangePercentage_tds (v : ℚ) :
    getSafeRangePercentage "tds" v =
      max 0 (min 100 (v / 500 * 100)) := rfl

lemma getSafeRangePercentage_temperature (v : ℚ) :
    getSafeRangePercentage "temperature" v =
      max 0 (min 100 (v / 25 * 100)) := rfl

/-- Lookup of any key other than the four kinds yields `none`. -/
lemma SENSOR_THRESHOLDS_eq_none (k : String) (h1 : k ≠ "ph")
    (h2 : k ≠ "turbidity") (h3 : k ≠ "tds") (h4 : k ≠ "temperature") :
    SENSOR_THRESHOLDS k = none := by
  unfold SENSOR_THRESHOLDS
  split
  · exact absurd rfl h1
  · exact absurd rfl h2
  · exact absurd rfl h3
  · exact absurd rfl h4
  · rfl

example : getSensorStatus "ph" 6.5 = "safe" := by
  rw [getSensorStatus_ph]; norm_num

example : getSafeRangePercentage "ph" 7.5 = 100 := by
  rw [getSafeRangePercentage_ph]; norm_num

/-! ### Severity helpers -/

lemma severity_le_two (s : String) : severity s ≤ 2 := by
  unfold severity; split_ifs <;> norm_num

lemma statusOfSeverity_severity (s : String)
    (h : s = "safe" ∨ s = "warning" ∨ s = "unsafe") :
    statusOfSeverity (severity s) = s := by
  rcases h with rfl | rfl | rfl <;> rfl

lemma severity_statusOfSeverity (n : ℕ) (h : n ≤ 2) :
    severity (statusOfSeverity n) = n := by
  interval_cases n <;> rfl

lemma statusOfSeverity_mem (n : ℕ) :
    statusOfSeverity n = "safe" ∨ statusOfSeverity n = "warning" ∨
      statusOfSeverity n = "unsafe" := by
  unfold statusOfSeverity; split_ifs <;> simp

/-- Every classification result is one of the three status strings. -/
lemma getSensorStatus_mem (k : String) (v : ℚ) :
    getSensorStatus k v = "safe" ∨ getSensorStatus k v = "warning" ∨
      getSensorStatus k v = "unsafe" := by
  rcases hθ : SENSOR_THRESHOLDS k with _ | t <;>
    simp only [getSensorStatus, hθ] <;> try simp
  split_ifs <;> simp

lemma clamp_bounds (x : ℚ) :
    0 ≤ max 0 (min 100 x) ∧ max 0 (min 100 x) ≤ 100 :=
  ⟨le_max_left _ _, max_le (by norm_num) (min_le_left _ _)⟩

/-! ### Lemmas about the aggregation fold -/

/-- Entries whose kind has no threshold leave the loop accumulator
unchanged. -/
lemma waterQualityStep_skip (acc : (String → Option String) × String)
    (entry : String × ℚ) (h : SENSOR_THRESHOLDS entry.1 = none) :
    waterQualityStep acc entry = acc := by
  simp [waterQualityStep, h]

/-- The overall-status update of one loop iteration computes the
severity maximum. -/
lemma upd_overall_spec (a s : String)
    (ha : a = "safe" ∨ a = "warning" ∨ a = "unsafe")
    (hs : s = "safe" ∨ s = "warning" ∨ s = "unsafe") :
    (if s = "unsafe" then "unsafe"
     else if s = "warning" ∧ a = "safe" then "warning" else a)
      = statusOfSeverity (max (severity a) (severity s)) := by
  rcases ha with rfl | rfl | rfl <;> rcases hs with rfl | rfl | rfl <;> decide

lemma classifiedStatuses_cons_none (e : String × ℚ)
    (data : List (String × ℚ)) (h : SENSOR_THRESHOLDS e.1 = none) :
    classifiedStatuses (e :: data) = classifiedStatuses data := by
  simp [classifiedStatuses, h]

lemma classifiedStatuses_cons_some (e : String × ℚ)
    (data : List (String × ℚ)) (t : Threshold)
    (h : SENSOR_THRESHOLDS e.1 = some t) :
    classifiedStatuses (e :: data)
      = getSensorStatus e.1 e.2 :: classifiedStatuses data := by
  simp [classifiedStatuses, h]

/-- The overall component of the fold is the severity maximum of the
classified statuses, seeded with the accumulator's status. -/
lemma foldl_overall_eq (data : List (String × ℚ)) :
    ∀ acc : (String → Option String) × String,
    acc.2 = "safe" ∨ acc.2 = "warning" ∨ acc.2 = "unsafe" →
    (data.foldl waterQualityStep acc).2
      = statusOfSeverity
          (((classifiedStatuses data).map severity).foldl max
            (severity acc.2)) := by
  induction data with
  | nil =>
    intro acc h
    simp only [List.foldl_nil, classifiedStatuses, List.filterMap_nil,
      List.map_nil]
    exact (statusOfSeverity_severity acc.2 h).symm
  | cons e data ih =>
    intro acc h
    rcases hθ : SENSOR_THRESHOLDS e.1 with _ | t
    · rw [List.foldl_cons, waterQualityStep_skip acc e hθ,
        classifiedStatuses_cons_none e data hθ]
      exact ih acc h
    · have hs := getSensorStatus_mem e.1 e.2
      have hstep2 : (waterQualityStep acc e).2
          = statusOfSeverity
              (max (severity acc.2) (severity (getSensorStatus e.1 e.2))) := by
        simp only [waterQualityStep, hθ]
        exact upd_overall_spec acc.2 _ h hs
      have hmem : (waterQualityStep acc e).2 = "safe" ∨
          (waterQualityStep acc e).2 = "warning" ∨
          (waterQualityStep acc e).2 = "unsafe" := by
        rw [hstep2]; exact statusOfSeverity_mem _
      rw [List.foldl_cons, ih (waterQualityStep acc e) hmem,
        classifiedStatuses_cons_some e data t hθ, hstep2,
        severity_statusOfSeverity _
          (max_le (severity_le_two _) (severity_le_two _))]
      simp [List.map_cons, List.foldl_cons]

lemma exists_mem_cons_of_ne {k : String} {e : String × ℚ}
    {data : List (String × ℚ)} (hne : k ≠ e.1) :
    (∃ v, (k, v) ∈ e :: data) ↔ ∃ v, (k, v) ∈ data := by
  constructor
  · rintro ⟨v, hv⟩
    rcases List.mem_cons.mp hv with hv | hv
    · exact absurd (congrArg Prod.fst hv) hne
    · exact ⟨v, hv⟩
  · rintro ⟨v, hv⟩
    exact ⟨v, List.mem_cons_of_mem _ hv⟩

/-- The per-sensor map of the fold has an entry for a name exactly when
the name has a threshold and occurs in the data, or it already had one
in the accumulator. -/
lemma foldl_sensors_mem (data : List (String × ℚ)) :
    ∀ (acc : (String → Option String) × String) (k : String),
    ((data.foldl waterQualityStep acc).1 k ≠ none ↔
      (SENSOR_THRESHOLDS k ≠ none ∧ ∃ v, (k, v) ∈ data) ∨
        acc.1 k ≠ none) := by
  induction data with
  | nil => intro acc k; simp
  | cons e data ih =>
    intro acc k
    rw [List.foldl_cons, ih]
    rcases hθ : SENSOR_THRESHOLDS e.1 with _ | t
    · rw [waterQualityStep_skip acc e hθ]
      by_cases hke : k = e.1
      · subst hke; simp [hθ]
      · rw [exists_mem_cons_of_ne hke]
    · by_cases hke : k = e.1
      · have hstep : (waterQualityStep acc e).1 k
            = some (getSensorStatus e.1 e.2) := by
          simp [waterQualityStep, hθ, hke]
        apply iff_of_true
        · exact Or.inr (by rw [hstep]; simp)
        · exact Or.inl ⟨by simp [hke, hθ], e.2, by rw [hke]; simp⟩
      · have hstep : (waterQualityStep acc e).1 k = acc.1 k := by
          simp [waterQualityStep, hθ, hke]
        rw [hstep, exists_mem_cons_of_ne hke]

/-- A name without a threshold never acquires an entry in the
per-sensor map. -/
lemma foldl_sensors_unknown (k : String) (hk : SENSOR_THRESHOLDS k = none)
    (data : List (String × ℚ)) :
    ∀ acc : (String → Option String) × String,
    acc.1 k = none → (data.foldl waterQualityStep acc).1 k = none := by
  induction data with
  | nil => intro acc h; exact h
  | cons e data ih =>
    intro acc h
    rw [List.foldl_cons]
    apply ih
    rcases hθ : SENSOR_THRESHOLDS e.1 with _ | t
    · rw [waterQualityStep_skip acc e hθ]; exact h
    · have hne : k ≠ e.1 := by
        intro hEq
        rw [hEq, hθ] at hk
        exact Option.noConfusion hk
      simp [waterQualityStep, hθ, hne, h]

/-- Every status stored in the per-sensor map is the classification of
an occurrence of that name in the data (or was already in the
accumulator). -/
lemma foldl_sensors_sound (data : List (String × ℚ)) :
    ∀ (acc : (String → Option String) × String) (k : String) (s : String),
    (data.foldl waterQualityStep acc).1 k = some s →
    (∃ v, (k, v) ∈ data ∧ s = getSensorStatus k v) ∨ acc.1 k = some s := by
  induction data with
  | nil => intro acc k s h; exact Or.inr h
  | cons e data ih =>
    intro acc k s h
    rw [List.foldl_cons] at h
    rcases ih (waterQualityStep acc e) k s h with ⟨v, hv, hs⟩ | hacc
    · exact Or.inl ⟨v, List.mem_cons_of_mem _ hv, hs⟩
    · rcases hθ : SENSOR_THRESHOLDS e.1 with _ | t
      · rw [waterQualityStep_skip acc e hθ] at hacc
        exact Or.inr hacc
      · by_cases hke : k = e.1
        · have hstep : (waterQualityStep acc e).1 k
              = some (getSensorStatus e.1 e.2) := by
            simp [waterQualityStep, hθ, hke]
          rw [hstep] at hacc
          refine Or.inl ⟨e.2, ?_, ?_⟩
          · rw [hke]; simp
          · rw [hke]; exact (Option.some.injEq _ _ ▸ hacc).symm
        · have hstep : (waterQualityStep acc e).1 k = acc.1 k := by
            simp [waterQualityStep, hθ, hke]
          rw [hstep] at hacc
          exact Or.inr hacc

/-- Result at a given position of a mapped call list, independent of the
surrounding calls. -/
lemma get?_map_middle {α : Type} (f : String × ℚ → α)
    (l1 l2 : List (String × ℚ)) (a : String × ℚ) :
    ((l1 ++ a :: l2).map f).get? l1.length = some (f a) := by
  induction l1 with
  | nil => rfl
  | cons b l1 ih => simpa using ih

/-! ### Claim theorems -/

/-- C1: classification follows the per-family threshold rules — for ph
(min 6.5, max 8.5, slack 0.5) and temperature (min 15, max 25, slack 5)
Safe iff min ≤ value ≤ max, Warning iff within the slack-widened band and
not Safe, Unsafe otherwise; for turbidity (max 5) and tds (max 500) Safe
iff value ≤ 0.8·max, Warning iff 0.8·max < value ≤ max, Unsafe iff
value > max. -/
theorem C1_classify_threshold_rules (v : ℚ) :
    (getSensorStatus "ph" v = "safe" ↔ 6.5 ≤ v ∧ v ≤ 8.5) ∧
    (getSensorStatus "ph" v = "warning" ↔
      (6.5 - 0.5 ≤ v ∧ v ≤ 8.5 + 0.5) ∧ ¬(6.5 ≤ v ∧ v ≤ 8.5)) ∧
    (getSensorStatus "ph" v = "unsafe" ↔
      ¬(6.5 - 0.5 ≤ v ∧ v ≤ 8.5 + 0.5)) ∧
    (getSensorStatus "temperature" v = "safe" ↔ 15 ≤ v ∧ v ≤ 25) ∧
    (getSensorStatus "temperature" v = "warning" ↔
      (15 - 5 ≤ v ∧ v ≤ 25 + 5) ∧ ¬(15 ≤ v ∧ v ≤ 25)) ∧
    (getSensorStatus "temperature" v = "unsafe" ↔
      ¬(15 - 5 ≤ v ∧ v ≤ 25 + 5)) ∧
    (getSensorStatus "turbidity" v = "safe" ↔ v ≤ 5 * 0.8) ∧
    (getSensorStatus "turbidity" v = "warning" ↔ 5 * 0.8 < v ∧ v ≤ 5) ∧
    (getSensorStatus "turbidity" v = "unsafe" ↔ 5 < v) ∧
    (getSensorStatus "tds" v = "safe" ↔ v ≤ 500 * 0.8) ∧
    (getSensorStatus "tds" v = "warning" ↔ 500 * 0.8 < v ∧ v ≤ 500) ∧
    (getSensorStatus "tds" v = "unsafe" ↔ 500 < v) := by
  simp only [getSensorStatus_ph, getSensorStatus_temperature,
    getSensorStatus_turbidity, getSensorStatus_tds]
  refine ⟨?_, ?_, ?_, ?_, ?_, ?_, ?_, ?_, ?_, ?_, ?_, ?_⟩ <;>
    split_ifs with h1 h2 <;> simp_all <;> (try constructor) <;> linarith

/-- C3 counterexample: turbidity exactly at its max threshold 5 does not
classify as Safe (and likewise tds at 500), refuting "value exactly at
min or max classifies as Safe" for all four kinds. -/
theorem C3_counterexample :
    getSensorStatus "turbidity" 5 ≠ "safe" ∧
    getSensorStatus "tds" 500 ≠ "safe" := by
  have h1 : getSensorStatus "turbidity" 5 = "warning" := by
    rw [getSensorStatus_turbidity]; norm_num
  have h2 : getSensorStatus "tds" 500 = "warning" := by
    rw [getSensorStatus_tds]; norm_num
  rw [h1, h2]
  constructor <;> decide

/-- C3 amended: values exactly at min or max classify as Safe for ph and
temperature, and at min (0) for turbidity and tds; but values exactly at
max classify as Warning for turbidity and tds. -/
theorem C3_boundary_amended :
    getSensorStatus "ph" 6.5 = "safe" ∧
    getSensorStatus "ph" 8.5 = "safe" ∧
    getSensorStatus "temperature" 15 = "safe" ∧
    getSensorStatus "temperature" 25 = "safe" ∧
    getSensorStatus "turbidity" 0 = "safe" ∧
    getSensorStatus "tds" 0 = "safe" ∧
    getSensorStatus "turbidity" 5 = "warning" ∧
    getSensorStatus "tds" 500 = "warning" := by
  refine ⟨?_, ?_, ?_, ?_, ?_, ?_, ?_, ?_⟩ <;>
    simp only [getSensorStatus_ph, getSensorStatus_temperature,
      getSensorStatus_turbidity, getSensorStatus_tds] <;> norm_num

/-- C4 counterexample: at the 15–25 midpoint 20 the code returns 80,
while the claimed two-sided formula (midpoint 20, range 10) yields 100. -/
theorem C4_counterexample :
    getSafeRangePercentage "temperature" 20 = 80 ∧
    max (0:ℚ) (min 100 (100 - |(20:ℚ) - 20| / (10 / 2) * 100)) = 100 ∧
    (80:ℚ) ≠ 100 := by
  refine ⟨?_, by norm_num, by norm_num⟩
  rw [getSafeRangePercentage_temperature]; norm_num

/-- C4 amended: temperature is not special-cased in
`getSafeRangePercentage`; it falls through to the one-sided formula
clamp(0, 100, (value / 25) × 100). -/
theorem C4_temperature_one_sided (v : ℚ) :
    getSafeRangePercentage "temperature" v =
      max 0 (min 100 (v / 25 * 100)) :=
  getSafeRangePercentage_temperature v

/-- C5: the ph percentage is the clamped two-sided formula around
midpoint 7.5 with half-range 1, and the turbidity/tds percentages are
the clamped fractions of their max. -/
theorem C5_percentage_formulas (v : ℚ) :
    getSafeRangePercentage "ph" v =
      max 0 (min 100 (100 - |v - 7.5| / 1 * 100)) ∧
    getSafeRangePercentage "turbidity" v =
      max 0 (min 100 (v / 5 * 100)) ∧
    getSafeRangePercentage "tds" v =
      max 0 (min 100 (v / 500 * 100)) := by
  refine ⟨?_, rfl, rfl⟩
  rw [getSafeRangePercentage_ph]; norm_num

/-- C8: for the upper-bounded kinds turbidity and tds, classification
severity is monotone non-decreasing in the value. -/
theorem C8_monotone_upper_bounded (k : String) (v1 v2 : ℚ)
    (hk : k = "turbidity" ∨ k = "tds") (h : v1 ≤ v2) :
    severity (getSensorStatus k v1) ≤ severity (getSensorStatus k v2) := by
  rcases hk with rfl | rfl <;>
    simp only [getSensorStatus_turbidity, getSensorStatus_tds] <;>
    split_ifs <;> first | decide | (exfalso; linarith)

/-- C8 witness at turbidity with values 1 ≤ 2. -/
theorem C8_witness : ("turbidity" = "turbidity" ∨ "turbidity" = "tds") ∧
    (1:ℚ) ≤ 2 ∧
    severity (getSensorStatus "turbidity" 1) ≤
      severity (getSensorStatus "turbidity" 2) :=
  ⟨Or.inl rfl, by norm_num,
    C8_monotone_upper_bounded "turbidity" 1 2 (Or.inl rfl) (by norm_num)⟩

/-- C9: any sensor name without a defined threshold gets percentage
exactly 50. -/
theorem C9_unknown_kind_percentage (k : String) (v : ℚ) (h1 : k ≠ "ph")
    (h2 : k ≠ "turbidity") (h3 : k ≠ "tds") (h4 : k ≠ "temperature") :
    getSafeRangePercentage k v = 50 := by
  unfold getSafeRangePercentage
  rw [SENSOR_THRESHOLDS_eq_none k h1 h2 h3 h4]

/-- C9 witness at the unknown kind "chlorine". -/
theorem C9_witness : getSafeRangePercentage "chlorine" 3 = 50 :=
  C9_unknown_kind_percentage "chlorine" 3 (by decide) (by decide)
    (by decide) (by decide)

/-- C2: `calculateWaterQuality` classifies exactly the entries whose
kind has a known threshold, its overall status is the most severe
individual status (Safe < Warning < Unsafe), with no classified entry the
overall status is Safe, and isPotable holds iff the overall status is
Safe. -/
theorem C2_aggregate (sensorData : List (String × ℚ)) :
    (calculateWaterQuality sensorData).overall = overallSpec sensorData ∧
    (∀ k, (calculateWaterQuality sensorData).sensors k ≠ none ↔
      SENSOR_THRESHOLDS k ≠ none ∧ ∃ v, (k, v) ∈ sensorData) ∧
    (∀ k s, (calculateWaterQuality sensorData).sensors k = some s →
      ∃ v, (k, v) ∈ sensorData ∧ s = getSensorStatus k v) ∧
    (classifiedStatuses sensorData = [] →
      (calculateWaterQuality sensorData).overall = "safe") ∧
    ((calculateWaterQuality sensorData).isPotable = true ↔
      (calculateWaterQuality sensorData).overall = "safe") := by
  have hoverall : (calculateWaterQuality sensorData).overall
      = overallSpec sensorData := by
    show (sensorData.foldl waterQualityStep (fun _ => none, "safe")).2 = _
    rw [foldl_overall_eq sensorData _ (Or.inl rfl)]
    rfl
  refine ⟨hoverall, ?_, ?_, ?_, ?_⟩
  · intro k
    have h := foldl_sensors_mem sensorData (fun _ => none, "safe") k
    simp only [calculateWaterQuality]
    rw [h]
    simp
  · intro k s h
    rcases foldl_sensors_sound sensorData (fun _ => none, "safe") k s h
      with hs | hnone
    · exact hs
    · exact Option.noConfusion hnone
  · intro hnil
    rw [hoverall]
    unfold overallSpec
    rw [hnil]
    rfl
  · simp [calculateWaterQuality]

/-- C2 witness at the shipped mock reading set. -/
theorem C2_witness :
    (calculateWaterQuality
        [("ph", 7.2), ("turbidity", 2.5), ("tds", 245),
         ("temperature", 22.5)]).overall
      = overallSpec
          [("ph", 7.2), ("turbidity", 2.5), ("tds", 245),
           ("temperature", 22.5)] :=
  (C2_aggregate
    [("ph", 7.2), ("turbidity", 2.5), ("tds", 245),
     ("temperature", 22.5)]).1

/-- C6: a sensor name outside the four defined kinds always classifies
as Warning, gets no entry in the per-sensor map, and an input entry with
such a name has no effect on the aggregate result at all. -/
theorem C6_unknown_kind (k : String) (v : ℚ)
    (data1 data2 : List (String × ℚ)) (h1 : k ≠ "ph")
    (h2 : k ≠ "turbidity") (h3 : k ≠ "tds") (h4 : k ≠ "temperature") :
    getSensorStatus k v = "warning" ∧
    (calculateWaterQuality (data1 ++ data2)).sensors k = none ∧
    calculateWaterQuality (data1 ++ (k, v) :: data2)
      = calculateWaterQuality (data1 ++ data2) := by
  have hk : SENSOR_THRESHOLDS k = none :=
    SENSOR_THRESHOLDS_eq_none k h1 h2 h3 h4
  refine ⟨?_, ?_, ?_⟩
  · simp [getSensorStatus, hk]
  · exact foldl_sensors_unknown k hk (data1 ++ data2)
      (fun _ => none, "safe") rfl
  · simp only [calculateWaterQuality, List.foldl_append, List.foldl_cons,
      waterQualityStep_skip _ (k, v) hk]

/-- C6 witness at the unknown kind "chlorine" inserted after a ph
reading. -/
theorem C6_witness :
    getSensorStatus "chlorine" 1 = "warning" ∧
    (calculateWaterQuality ([("ph", 7)] ++ [])).sensors "chlorine"
      = none ∧
    calculateWaterQuality ([("ph", 7)] ++ ("chlorine", 1) :: [])
      = calculateWaterQuality ([("ph", 7)] ++ []) :=
  C6_unknown_kind "chlorine" 1 [("ph", 7)] [] (by decide) (by decide)
    (by decide) (by decide)

/-- C7: classification and percentage are pure in (kind, value) — in any
sequence of calls the result at a position is exactly the function of
that call's arguments, independent of all preceding and following
calls. -/
theorem C7_purity (pre post pre2 post2 : List (String × ℚ)) (k : String)
    (v : ℚ) :
    (runClassifyCalls (pre ++ (k, v) :: post)).get? pre.length
      = some (getSensorStatus k v) ∧
    (runPercentageCalls (pre ++ (k, v) :: post)).get? pre.length
      = some (getSafeRangePercentage k v) ∧
    (runClassifyCalls (pre ++ (k, v) :: post)).get? pre.length
      = (runClassifyCalls (pre2 ++ (k, v) :: post2)).get? pre2.length ∧
    (runPercentageCalls (pre ++ (k, v) :: post)).get? pre.length
      = (runPercentageCalls (pre2 ++ (k, v) :: post2)).get? pre2.length := by
  refine ⟨get?_map_middle _ _ _ _, get?_map_middle _ _ _ _, ?_, ?_⟩ <;>
    simp only [runClassifyCalls, runPercentageCalls] <;>
    rw [get?_map_middle, get?_map_middle]

/-- C10: for every sensor name and value the percentage lies in
[0, 100]. -/
theorem C10_percentage_bounds (k : String) (v : ℚ) :
    0 ≤ getSafeRangePercentage k v ∧ getSafeRangePercentage k v ≤ 100 := by
  rcases hθ : SENSOR_THRESHOLDS k with _ | t <;>
    simp only [getSafeRangePercentage, hθ]
  · norm_num
  · split_ifs <;> exact clamp_bounds _
